import Mathlib

/-!
A shallow embedding of the alumni-backend record service (`src/app.py`).

The program keeps all state in a single JSON document (`alumni_data.json`)
holding two dictionaries: `alumni` (identifier → record) and `batch_counts`
(batch label → highest issued sequence number), plus a class-level in-memory
copy of the counter table (`Alumni._batch_counts`) and a directory of photo
files.  Python dictionaries are embedded as association lists that preserve
insertion order; dictionary update replaces the value in place when the key
is present and appends otherwise.  Machine-level details that the program
never relies on (file handles, HTTP transport) are abstracted: each route
handler becomes a function from the explicit state to a new state paired
with an `Except` result, where raised exceptions become `Except.error`.
-/

deriving instance DecidableEq for Except

namespace AlumniBackend

/-- Exceptions raised by the handlers: `HTTPException(code, detail)` and
pydantic `ValidationError`. -/
inductive Ex where
  | http (code : Nat) (detail : String)
  | validation (msg : String)
deriving DecidableEq

/-- Rendering `str(e)` as used by the blanket `except Exception` re-raise in
`create_alumni` / `update_alumni` (Starlette renders an `HTTPException`
as `"{code}: {detail}"`). -/
def exStr : Ex → String
  | .http c d => toString c ++ ": " ++ d
  | .validation m => m

/-- One alumni record, with the fields of the `Alumni` pydantic model of
`src/app.py`.  `Industry_experiences` is a Python float constrained by the
model to the open interval (-1, 50); within that range the values the
program compares and stores behave like exact rationals, so it is embedded
as `Option Rat`. -/
structure Rec where
  id : String
  firstname : String
  surname : Option String
  gender : String
  batch : String
  linkedin_url : String
  current_organization : Option String
  current_position : Option String
  current_location : Option String
  Industry_experiences : Option Rat
  software_skill_1 : Option String
  software_skill_2 : Option String
  software_skill_3 : Option String
  programming_lang_1 : Option String
  programming_lang_2 : Option String
  programming_lang_3 : Option String
  profile_photo : Option String
deriving DecidableEq

/-- The payload `model_dump(exclude=id,batch)`: every field of a record except
the identifier and the batch label. -/
structure RecData where
  firstname : String
  surname : Option String
  gender : String
  linkedin_url : String
  current_organization : Option String
  current_position : Option String
  current_location : Option String
  Industry_experiences : Option Rat
  software_skill_1 : Option String
  software_skill_2 : Option String
  software_skill_3 : Option String
  programming_lang_1 : Option String
  programming_lang_2 : Option String
  programming_lang_3 : Option String
  profile_photo : Option String
deriving DecidableEq

def Rec.toData (r : Rec) : RecData :=
  ⟨r.firstname, r.surname, r.gender, r.linkedin_url, r.current_organization,
   r.current_position, r.current_location, r.Industry_experiences,
   r.software_skill_1, r.software_skill_2, r.software_skill_3,
   r.programming_lang_1, r.programming_lang_2, r.programming_lang_3,
   r.profile_photo⟩

/-- Constructor input `cls(id=..., batch=..., **data)`: assemble a record from an identifier,
a batch label and the remaining fields (before the validators run). -/
def assemble (i batch : String) (d : RecData) : Rec :=
  ⟨i, d.firstname, d.surname, d.gender, batch, d.linkedin_url,
   d.current_organization, d.current_position, d.current_location,
   d.Industry_experiences, d.software_skill_1, d.software_skill_2,
   d.software_skill_3, d.programming_lang_1, d.programming_lang_2,
   d.programming_lang_3, d.profile_photo⟩

/-! ### The pydantic validators of the `Alumni` model -/

/-- Python `str.capitalize` (ASCII behavior): first character upper-cased,
the rest lower-cased. -/
def capitalize (s : String) : String :=
  match s.data with
  | [] => s
  | c :: cs => ⟨c.toUpper :: cs.map Char.toLower⟩

/-- Validator `capitalize_name` on a required `str` field: `v.capitalize() if v else v`
(the empty string is falsy and passes through unchanged). -/
def capS (s : String) : String := if s = "" then s else capitalize s

/-- Validator `capitalize_name` on an `Optional[str]` field. -/
def capO : Option String → Option String
  | none => none
  | some s => some (capS s)

/-- The `mode="before"` name validators applied by record construction. -/
def applyCaps (r : Rec) : Rec :=
  { r with firstname := capS r.firstname, surname := capO r.surname }

/-- Validator `validate_gender`: the value must be one of `Male`, `Female`, `Other`. -/
def validGender (g : String) : Bool :=
  g == "Male" || g == "Female" || g == "Other"

def isDig (c : Char) : Bool := '0' ≤ c && c ≤ '9'

def digVal (c : Char) : Nat := c.toNat - 48

/-- Matching the batch regex of `validate_batch`: parse a batch label
`20XY-ZW` into the start year `20XY` and the two-digit end-year group `ZW`. -/
def batchCore : List Char → Option (Nat × Nat)
  | ['2', '0', a, b, '-', c, d] =>
    if isDig a && isDig b && isDig c && isDig d then
      some (2000 + 10 * digVal a + digVal b, 10 * digVal c + digVal d)
    else none
  | _ => none

/-- In a Python regex, `$` also matches just before a single trailing
newline; `re.match` therefore accepts the pattern followed by one `'\n'`. -/
def stripNL (l : List Char) : List Char :=
  if l.getLast? = some '\n' then l.dropLast else l

/-- Validator `validate_batch`: the label must match `^(20\d\x7b2\x7d)-(\d\x7b2\x7d)$`
and satisfy `end_year == start_year + 2` where
`end_year = group2 + (start_year // 100) * 100`. -/
def validBatch (v : String) : Bool :=
  match batchCore (stripNL v.data) with
  | some (start, e2) => (start / 100) * 100 + e2 == start + 2
  | none => false

/-- The word-character class of the profile-URL regex (ASCII fragment: the program only ever
feeds it ASCII identifiers) together with the literal `-`. -/
def wordChar (c : Char) : Bool :=
  ('a' ≤ c && c ≤ 'z') || ('A' ≤ c && c ≤ 'Z') || ('0' ≤ c && c ≤ '9')
    || c = '_' || c = '-'

def dropPre (p : List Char) (l : List Char) : List Char :=
  if l.take p.length = p then l.drop p.length else l

/-- Validator `validate_linkedin_url`: the URL must match
`^(https?://)?(www\.)?linkedin\.com/in/[\w-]+/?$` (with the same
trailing-newline allowance of `$` as for batches). -/
def validLI (v : String) : Bool :=
  let l := stripNL v.data
  let l := dropPre "https://".data (dropPre "http://".data l)
  let l := dropPre "www.".data l
  let pre := "linkedin.com/in/".data
  if l.take pre.length = pre then
    let rest := l.drop pre.length
    let run := rest.takeWhile wordChar
    let tail := rest.drop run.length
    decide (run ≠ []) && (tail = [] || tail = ['/'])
  else false

/-- The `Field(gt=-1, lt=50)` constraint on `Industry_experiences`. -/
def expOK : Option Rat → Bool
  | none => true
  | some x => (-1 : Rat) < x && x < 50

/-- The field validators that can reject a record (gender, batch,
profile-URL, experience bound); the name validators only transform. -/
def validRec (r : Rec) : Bool :=
  validGender r.gender && validBatch r.batch && validLI r.linkedin_url
    && expOK r.Industry_experiences

/-- Constructing an `Alumni(...)` model instance: run the `mode="before"`
name normalizers, then the field validators; a failing validator raises
`ValidationError`. -/
def pydantic (r : Rec) : Except Ex Rec :=
  let r' := applyCaps r
  if validRec r' then .ok r' else .error (.validation "validation error")

/-! ### Dictionaries, identifiers and the counter table -/

/-- Python dictionary update `m[k] = v`: replace in place when the key is
present, append otherwise (insertion order preserved). -/
def dinsert {α : Type} (m : List (String × α)) (k : String) (v : α) :
    List (String × α) :=
  if m.any (fun p => p.1 == k) then
    m.map (fun p => if p.1 = k then (k, v) else p)
  else m ++ [(k, v)]

/-- Python `del m[k]` / `m.pop(k)` on a dictionary (keys are unique). -/
def eraseKey {α : Type} (m : List (String × α)) (k : String) :
    List (String × α) :=
  m.filter (fun p => p.1 != k)

abbrev Counts := List (String × Nat)

def digitChar : Nat → Char
  | 0 => '0' | 1 => '1' | 2 => '2' | 3 => '3' | 4 => '4'
  | 5 => '5' | 6 => '6' | 7 => '7' | 8 => '8' | _ => '9'

/-- Decimal digits of `n`, most significant first (`[]` for `0`; the
zero-padding below restores the `0` digits).  The first argument is fuel,
always called with fuel ≥ n. -/
def decAux : Nat → Nat → List Char
  | _, 0 => []
  | 0, _ + 1 => []
  | fuel + 1, n + 1 =>
    decAux fuel ((n + 1) / 10) ++ [digitChar ((n + 1) % 10)]

def decChars (n : Nat) : List Char := decAux n n

/-- Formatting with width 3 and zero padding, as a character list: the decimal digits of `n`, left-padded
with `'0'` to at least 3 characters. -/
def pad3 (n : Nat) : List Char :=
  List.replicate (3 - (decChars n).length) '0' ++ decChars n

/-- The identifier format: sequence number zero-padded to 3 digits, a
hyphen, then the batch label. -/
def fmt3 (count : Nat) (batch : String) : String :=
  ⟨pad3 count ++ '-' :: batch.data⟩

/-- The sequence number the next mint under `batch` will use:
`counts.get(batch, 0) + 1`. -/
def nextSeq (cs : Counts) (batch : String) : Nat :=
  (List.lookup batch cs).getD 0 + 1

/-- Classmethod `Alumni.create(batch, **data)`: increment the batch-specific counter,
store it back into the table, format the identifier, then construct (and
validate) the model instance.  The counter is updated even when the
subsequent validation fails. -/
def alumniCreate (cs : Counts) (batch : String) (d : RecData) :
    Counts × Except Ex Rec :=
  let count := nextSeq cs batch
  (dinsert cs batch count, pydantic (assemble (fmt3 count batch) batch d))

/-! ### Persisted document and global state -/

/-- The content of `alumni_data.json`: the record mapping and the batch
counter table. -/
structure Doc where
  alumni : List (String × Rec)
  batch_counts : Counts
deriving DecidableEq

def emptyDoc : Doc := ⟨[], []⟩

/-- The data file on disk: absent, present but not decodable as JSON
(`json.JSONDecodeError`), or a well-formed document. -/
inductive FileState where
  | absent
  | corrupt
  | valid (d : Doc)
deriving DecidableEq

/-- Function `load_data()`: returns the parsed document, or an empty one when the
file is absent or undecodable.  Only on a successful parse is the in-memory
counter table `Alumni._batch_counts` reset from the file; in the other two
branches it keeps its previous value.  The second component is the
in-memory counter table after the call. -/
def load_data (fs : FileState) (counts : Counts) : Doc × Counts :=
  match fs with
  | .absent => (emptyDoc, counts)
  | .corrupt => (emptyDoc, counts)
  | .valid d => (d, d.batch_counts)

/-- Function `save_data(data)`: sets `data["batch_counts"]` to the in-memory counter
table and rewrites the whole file. -/
def save_data (d : Doc) (counts : Counts) : FileState :=
  .valid { d with batch_counts := counts }

/-- The whole observable state: the data file, the in-memory class-level
counter table, and the set of file names in the photo directory. -/
structure Sys where
  file : FileState
  counts : Counts
  photos : List String
deriving DecidableEq

/-! ### Route handlers -/

/-- Truthiness of `updated_dict.get("profile_photo")` /
`record.get("profile_photo")`: `None` and `""` are falsy. -/
def photoTruthy : Option String → Bool
  | none => false
  | some p => p != ""

/-- Route `POST /create_alumni` (the handler body, after FastAPI has parsed the
request body into a valid `Alumni`): mint an identifier via
`Alumni.create`, reject when it already exists, otherwise insert and
persist.  The `except Exception` clause re-raises everything — including
the 400 duplicate-identifier `HTTPException` — as a 500 whose detail is
`str(e)`. -/
def create_alumni (s : Sys) (alumni : Rec) : Sys × Except Ex String :=
  let dc := (load_data s.file s.counts).1
  let c0 := (load_data s.file s.counts).2
  let step := alumniCreate c0 alumni.batch alumni.toData
  match step.2 with
  | .error e => ({ s with counts := step.1 }, .error (.http 500 (exStr e)))
  | .ok obj =>
    if (List.lookup obj.id dc.alumni).isSome then
      ({ s with counts := step.1 },
        .error (.http 500 (exStr (.http 400 "Alumni ID already exists"))))
    else
      let dc' := { dc with alumni := dinsert dc.alumni obj.id obj }
      ({ s with file := save_data dc' step.1, counts := step.1 }, .ok obj.id)

/-- The `POST /create_alumni` route including FastAPI body validation: a
request body that fails the pydantic validators is rejected with a 422
before the handler runs. -/
def create_endpoint (s : Sys) (raw : Rec) : Sys × Except Ex String :=
  match pydantic raw with
  | .error _ => (s, .error (.http 422 "request body validation failed"))
  | .ok a => create_alumni s a

/-- Route `GET /alumni/(alumni_id)`. -/
def get_alumni (s : Sys) (alumni_id : String) : Sys × Except Ex Rec :=
  let dc := (load_data s.file s.counts).1
  let c0 := (load_data s.file s.counts).2
  match List.lookup alumni_id dc.alumni with
  | none => ({ s with counts := c0 }, .error (.http 404 "Alumni not found"))
  | some r => ({ s with counts := c0 }, .ok r)

/-- The sort key `x.get("Industry_experiences", 0) or 0`, with a missing
(`None`) value — and the falsy value `0.0` — collapsing to `0`. -/
def expKey (r : Rec) : Rat := r.Industry_experiences.getD 0

/-- The filter stage of `GET /sort_alumni`: `if batch:` / `if gender:` are
truthiness tests, so an empty-string query value disables that filter. -/
def filterPipe (l : List Rec) (batch gender : Option String) : List Rec :=
  let l := match batch with
    | some b => if b == "" then l else l.filter (fun a => a.batch == b)
    | none => l
  match gender with
  | some g => if g == "" then l else l.filter (fun a => a.gender == g)
  | none => l

/-- Route `GET /sort_alumni`: filter by batch and gender, then — only when a
truthy `sort_by` is supplied — validate the sort key and order and sort by
experience (Python's stable ascending `sorted`, reversed comparisons when
`order == "desc"`).  The response is the `results` list (its `total` field
is the list's length).  Original error details quote the strings
`'Industry_experiences'`, `'asc'`, `'desc'`. -/
def sort_alumni (s : Sys) (sort_by : Option String) (order : String)
    (batch gender : Option String) : Sys × Except Ex (List Rec) :=
  let dc := (load_data s.file s.counts).1
  let c0 := (load_data s.file s.counts).2
  let l := filterPipe (dc.alumni.map Prod.snd) batch gender
  let doSort : Bool := match sort_by with
    | none => false
    | some sb => sb != ""
  if doSort then
    let sb := sort_by.getD ""
    if sb != "Industry_experiences" then
      ({ s with counts := c0 },
        .error (.http 400 "You can only sort by Industry_experiences"))
    else if order != "asc" && order != "desc" then
      ({ s with counts := c0 }, .error (.http 400 "Order must be asc or desc"))
    else
      let sorted := if order == "desc" then
          l.mergeSort (fun a b => expKey b ≤ expKey a)
        else
          l.mergeSort (fun a b => expKey a ≤ expKey b)
      ({ s with counts := c0 }, .ok sorted)
  else
    ({ s with counts := c0 }, .ok l)

/-- The dictionary `update_alumni` stores back: the caller's replacement
with `id` forced to the path parameter, `batch` forced to the stored
record's batch, and a falsy (`None`/empty) replacement photo reference
falling back to the stored one. -/
def updMerge (alumni_id : String) (old upd : Rec) : Rec :=
  { upd with
    id := alumni_id
    batch := old.batch
    profile_photo :=
      if photoTruthy upd.profile_photo then upd.profile_photo
      else old.profile_photo }

/-- Route `PUT /update_alumni/(alumni_id)` (handler body; the request body was
parsed into a valid `Alumni` by FastAPI): replace the stored record,
forcing `id` and `batch` back to the stored values and keeping the stored
photo reference when the supplied one is falsy.  The 404 raised inside the
`try` block is re-wrapped by `except Exception` as a 500. -/
def update_alumni (s : Sys) (alumni_id : String) (upd : Rec) :
    Sys × Except Ex Rec :=
  let dc := (load_data s.file s.counts).1
  let c0 := (load_data s.file s.counts).2
  match List.lookup alumni_id dc.alumni with
  | none =>
    ({ s with counts := c0 },
      .error (.http 500 (exStr (.http 404 "Alumni not found"))))
  | some old =>
    let nd := updMerge alumni_id old upd
    let dc' := { dc with alumni := dinsert dc.alumni alumni_id nd }
    ({ s with file := save_data dc' c0, counts := c0 }, .ok nd)

/-- The `PUT /update_alumni/(alumni_id)` route including FastAPI body
validation: a request body that fails the pydantic validators is
rejected with a 422 before the handler runs. -/
def update_endpoint (s : Sys) (alumni_id : String) (raw : Rec) :
    Sys × Except Ex Rec :=
  match pydantic raw with
  | .error _ => (s, .error (.http 422 "request body validation failed"))
  | .ok a => update_alumni s alumni_id a

/-- Route `DELETE /alumni/(alumni_id)`: pop the record, delete its photo file
when the stored reference is truthy and the file exists, save. -/
def delete_alumni (s : Sys) (alumni_id : String) : Sys × Except Ex String :=
  let dc := (load_data s.file s.counts).1
  let c0 := (load_data s.file s.counts).2
  match List.lookup alumni_id dc.alumni with
  | none => ({ s with counts := c0 }, .error (.http 404 "Alumni not found"))
  | some record =>
    let photos' :=
      if photoTruthy record.profile_photo then
        let p := record.profile_photo.getD ""
        if p ∈ s.photos then s.photos.filter (fun q => q != p) else s.photos
      else s.photos
    let dc' := { dc with alumni := eraseKey dc.alumni alumni_id }
    ({ s with file := save_data dc' c0, counts := c0, photos := photos' },
      .ok alumni_id)

/-- Renaming a photo file, as `os.rename` does, in the photo directory. -/
def fsRename (ps : List String) (a b : String) : List String :=
  (ps.filter (fun q => q != a && q != b)) ++ [b]

/-- Route `PUT /update_id/(old_id)`: mint a new identifier under `new_batch` from
the stored record's other fields, rename the photo file when one exists
under the old identifier (updating the stored reference), delete the old
entry, insert the new one, save.  There is no `try` block: a
`ValidationError` from `Alumni.create` propagates after the counter table
has already been updated. -/
def update_alumni_id (s : Sys) (old_id new_batch : String) :
    Sys × Except Ex String :=
  let dc := (load_data s.file s.counts).1
  let c0 := (load_data s.file s.counts).2
  match List.lookup old_id dc.alumni with
  | none => ({ s with counts := c0 }, .error (.http 404 "Alumni not found"))
  | some old =>
    let step := alumniCreate c0 new_batch old.toData
    match step.2 with
    | .error e => ({ s with counts := step.1 }, .error e)
    | .ok obj =>
      let newId := obj.id
      let oldName := old_id ++ ".jpg"
      let newName := newId ++ ".jpg"
      let havePhoto := oldName ∈ s.photos
      let photos' := if havePhoto then fsRename s.photos oldName newName
        else s.photos
      let obj' := if havePhoto then { obj with profile_photo := some newName }
        else obj
      let dc' := { dc with
        alumni := dinsert (eraseKey dc.alumni old_id) newId obj' }
      let s2 : Sys :=
        { s with
          file := save_data dc' step.1
          counts := step.1
          photos := photos' }
      (s2, .ok newId)

/-- Minting `n` identifiers in a row under one batch via `Alumni.create`
(one fixed payload), collecting the identifiers of the successfully
created records and threading the counter table. -/
def createSeq (batch : String) (d : RecData) :
    Nat → Counts → List String × Counts
  | 0, cs => ([], cs)
  | n + 1, cs =>
    let step := alumniCreate cs batch d
    let rest := createSeq batch d n step.1
    ((match step.2 with
      | .ok a => [a.id]
      | .error _ => []) ++ rest.1, rest.2)

/-! ### Concrete fixtures used by the example theorems -/

/-- A concrete creation payload that passes every validator. -/
def exData : RecData :=
  { firstname := "Asha"
    surname := some "Rao"
    gender := "Female"
    linkedin_url := "https://www.linkedin.com/in/asha"
    current_organization := some "Acme"
    current_position := none
    current_location := none
    Industry_experiences := some 3
    software_skill_1 := none
    software_skill_2 := none
    software_skill_3 := none
    programming_lang_1 := none
    programming_lang_2 := none
    programming_lang_3 := none
    profile_photo := none }

/-- A stored record under batch `2008-10` with a given identifier. -/
def mkEx (i : String) : Rec := assemble i "2008-10" exData

/-- A stored record that references its uploaded photo file. -/
def exRecP : Rec :=
  { mkEx "001-2008-10" with profile_photo := some "001-2008-10.jpg" }

/-- A one-record store whose record has an uploaded photo. -/
def exDoc : Doc := ⟨[("001-2008-10", exRecP)], [("2008-10", 1)]⟩

/-- State for the photo-rename example: the photo file exists on disk. -/
def exSys : Sys := ⟨.valid exDoc, [], ["001-2008-10.jpg"]⟩

/-- Same store but with no photo file on disk. -/
def exSysNP : Sys := ⟨.valid exDoc, [], []⟩

/-- A three-record store under batch `2008-10` with counter 3. -/
def exDoc3 : Doc :=
  ⟨[("001-2008-10", mkEx "001-2008-10"), ("002-2008-10", mkEx "002-2008-10"),
    ("003-2008-10", mkEx "003-2008-10")], [("2008-10", 3)]⟩

def exSys3 : Sys := ⟨.valid exDoc3, [], []⟩

/-- An empty store with an existing (empty) data file. -/
def exSys0 : Sys := ⟨.valid emptyDoc, [], []⟩

/-- A request body whose batch label fails `validate_batch`. -/
def exBadRec : Rec := assemble "x" "bad" exData

/-- A replacement body for the update example: different name and
experience, a different batch/id (to be discarded), no photo. -/
def exUpd : Rec :=
  { mkEx "zzz" with
    firstname := "Brinda"
    batch := "2012-14"
    Industry_experiences := some 7 }

/-- Decimal value of a digit character (used only to prove the identifier
format injective). -/
def chVal (c : Char) : Nat := c.toNat - 48

/-- Read a digit string back as a number (left inverse of `pad3`). -/
def readNat (cs : List Char) : Nat :=
  cs.foldl (fun a c => 10 * a + chVal c) 0

/-- The validator conditions on the non-batch fields of a creation payload
(what `Alumni.create` checks besides the batch label). -/
def dataOK (d : RecData) : Bool :=
  validGender d.gender && validLI d.linkedin_url && expOK d.Industry_experiences

/-! ## Lemmas about the dictionary embedding -/

theorem lookup_nil {α : Type} (k : String) :
    List.lookup k ([] : List (String × α)) = none := rfl

theorem lookup_cons {α : Type} (k pk : String) (pv : α)
    (t : List (String × α)) :
    List.lookup k ((pk, pv) :: t)
      = if k = pk then some pv else List.lookup k t := by
  by_cases h : k = pk
  · subst h; simp [List.lookup]
  · simp [List.lookup, beq_eq_false_iff_ne.mpr h, h]

theorem lookup_append {α : Type} (m l : List (String × α)) (k : String) :
    List.lookup k (m ++ l) = (List.lookup k m).or (List.lookup k l) := by
  induction m with
  | nil => simp [lookup_nil]
  | cons p t ih =>
    obtain ⟨pk, pv⟩ := p
    by_cases h : k = pk <;> simp [lookup_cons, h, ih]

theorem lookup_replace {α : Type} (m : List (String × α)) (k : String)
    (v : α) (h : m.any (fun p => p.1 == k) = true) :
    List.lookup k (m.map (fun p => if p.1 = k then (k, v) else p))
      = some v := by
  induction m with
  | nil => simp at h
  | cons p t ih =>
    obtain ⟨pk, pv⟩ := p
    by_cases hp : pk = k
    · subst hp; simp [lookup_cons]
    · have hp' : (pk == k) = false := beq_eq_false_iff_ne.mpr hp
      simp only [List.any_cons, hp', Bool.false_or] at h
      simp [lookup_cons, hp, Ne.symm hp, ih h]

theorem lookup_none_of_any_false {α : Type} (m : List (String × α))
    (k : String) (h : m.any (fun p => p.1 == k) = false) :
    List.lookup k m = none := by
  induction m with
  | nil => simp [lookup_nil]
  | cons p t ih =>
    obtain ⟨pk, pv⟩ := p
    simp only [List.any_cons, Bool.or_eq_false_iff] at h
    have h1 : pk ≠ k := beq_eq_false_iff_ne.mp h.1
    simp [lookup_cons, Ne.symm h1, ih h.2]

theorem lookup_dinsert_self {α : Type} (m : List (String × α)) (k : String)
    (v : α) : List.lookup k (dinsert m k v) = some v := by
  unfold dinsert
  by_cases h : m.any (fun p => p.1 == k) = true
  · simp only [h, if_true]
    exact lookup_replace m k v h
  · simp only [Bool.not_eq_true] at h
    simp only [h, Bool.false_eq_true, if_false]
    rw [lookup_append, lookup_none_of_any_false m k h]
    simp [lookup_cons, lookup_nil]

theorem lookup_dinsert_ne {α : Type} (m : List (String × α)) (k k' : String)
    (v : α) (h : k' ≠ k) :
    List.lookup k' (dinsert m k v) = List.lookup k' m := by
  unfold dinsert
  by_cases hm : m.any (fun p => p.1 == k) = true
  · simp only [hm, if_true]
    clear hm
    induction m with
    | nil => simp
    | cons p t ih =>
      obtain ⟨pk, pv⟩ := p
      by_cases hp : pk = k
      · subst hp
        simp [lookup_cons, h, ih]
      · by_cases hk : k' = pk <;> simp [lookup_cons, hp, hk, ih]
  · simp only [Bool.not_eq_true] at hm
    simp only [hm, Bool.false_eq_true, if_false]
    rw [lookup_append]
    have hx : List.lookup k' [(k, v)] = none := by
      simp [lookup_cons, lookup_nil, h]
    simp [hx]

theorem lookup_eraseKey_self {α : Type} (m : List (String × α))
    (k : String) : List.lookup k (eraseKey m k) = none := by
  induction m with
  | nil => simp [eraseKey, lookup_nil]
  | cons p t ih =>
    obtain ⟨pk, pv⟩ := p
    by_cases hp : pk = k
    · subst hp; simpa [eraseKey] using ih
    · have h1 : (pk != k) = true := by simp [hp]
      simpa [eraseKey, h1, lookup_cons, Ne.symm hp] using ih

theorem lookup_eraseKey_ne {α : Type} (m : List (String × α)) (k k' : String)
    (h : k' ≠ k) : List.lookup k' (eraseKey m k) = List.lookup k' m := by
  induction m with
  | nil => simp [eraseKey]
  | cons p t ih =>
    obtain ⟨pk, pv⟩ := p
    by_cases hp : pk = k
    · subst hp
      simpa [eraseKey, lookup_cons, h] using ih
    · have h1 : (pk != k) = true := by simp [hp]
      have ih' : List.lookup k' (List.filter (fun p => p.1 != k) t)
          = List.lookup k' t := ih
      by_cases hk : k' = pk <;> simp [eraseKey, h1, lookup_cons, hk, ih']

/-! ## The identifier format is injective in the sequence number -/

theorem chVal_digitChar (d : Nat) (h : d < 10) : chVal (digitChar d) = d := by
  interval_cases d <;> rfl

theorem decAux_foldl : ∀ fuel n : Nat, n ≤ fuel → ∀ a : Nat,
    (decAux fuel n).foldl (fun x c => 10 * x + chVal c) a
      = a * 10 ^ (decAux fuel n).length + n := by
  intro fuel
  induction fuel with
  | zero =>
    intro n hn a
    interval_cases n
    simp [decAux]
  | succ fuel ih =>
    intro n hn a
    match n with
    | 0 => simp [decAux]
    | n + 1 =>
      have hq : (n + 1) / 10 ≤ fuel := by
        have h2 := Nat.div_lt_self (Nat.succ_pos n) (by norm_num : 1 < 10)
        omega
      have hstep : decAux (fuel + 1) (n + 1)
          = decAux fuel ((n + 1) / 10) ++ [digitChar ((n + 1) % 10)] := rfl
      rw [hstep, List.foldl_append, ih _ hq a]
      have hr : chVal (digitChar ((n + 1) % 10)) = (n + 1) % 10 :=
        chVal_digitChar _ (Nat.mod_lt _ (by norm_num))
      simp only [List.foldl_cons, List.foldl_nil, List.length_append,
        List.length_singleton, hr]
      calc 10 * (a * 10 ^ (decAux fuel ((n + 1) / 10)).length + (n + 1) / 10)
            + (n + 1) % 10
          = a * (10 ^ (decAux fuel ((n + 1) / 10)).length * 10)
            + (10 * ((n + 1) / 10) + (n + 1) % 10) := by ring
        _ = a * 10 ^ ((decAux fuel ((n + 1) / 10)).length + 1) + (n + 1) := by
            rw [Nat.div_add_mod, pow_succ]

theorem readNat_decChars (n : Nat) : readNat (decChars n) = n := by
  have h := decAux_foldl n n le_rfl 0
  simpa [readNat, decChars] using h

theorem foldl_zeros (z : Nat) :
    (List.replicate z '0').foldl (fun a c => 10 * a + chVal c) 0 = 0 := by
  induction z with
  | zero => rfl
  | succ z ih =>
    have h0 : (10 : Nat) * 0 + chVal '0' = 0 := by decide
    simp only [List.replicate_succ, List.foldl_cons, h0]
    exact ih

theorem readNat_pad3 (n : Nat) : readNat (pad3 n) = n := by
  show (pad3 n).foldl (fun a c => 10 * a + chVal c) 0 = n
  unfold pad3
  rw [List.foldl_append, foldl_zeros]
  exact readNat_decChars n

theorem pad3_inj {a b : Nat} (h : pad3 a = pad3 b) : a = b := by
  have h2 := congrArg readNat h
  rwa [readNat_pad3, readNat_pad3] at h2

theorem fmt3_inj {a b : Nat} {B : String} (h : fmt3 a B = fmt3 b B) :
    a = b := by
  have h2 : pad3 a ++ '-' :: B.data = pad3 b ++ '-' :: B.data :=
    congrArg String.data h
  exact pad3_inj (List.append_cancel_right h2)

/-! ## Lemmas about record construction and minting -/

theorem applyCaps_assemble (i b : String) (a : Rec) (h : applyCaps a = a) :
    applyCaps (assemble i b a.toData) = { a with id := i, batch := b } := by
  have h1 : capS a.firstname = a.firstname := congrArg Rec.firstname h
  have h2 : capO a.surname = a.surname := congrArg Rec.surname h
  simp [applyCaps, assemble, Rec.toData, h1, h2]

theorem pydantic_assemble (i b : String) (a : Rec) (hca : applyCaps a = a)
    (hg : validGender a.gender = true) (hli : validLI a.linkedin_url = true)
    (hexp : expOK a.Industry_experiences = true)
    (hb : validBatch b = true) :
    pydantic (assemble i b a.toData) = .ok { a with id := i, batch := b } := by
  unfold pydantic
  rw [applyCaps_assemble i b a hca]
  have hval : validRec { a with id := i, batch := b } = true := by
    simp [validRec, hg, hli, hexp, hb]
  simp [hval]

theorem pydantic_ok_iff (a : Rec) :
    pydantic a = .ok a ↔ applyCaps a = a ∧ validRec a = true := by
  constructor
  · intro h
    unfold pydantic at h
    by_cases hv : validRec (applyCaps a) = true
    · simp only [hv, if_true] at h
      have h2 : applyCaps a = a := by simpa using h
      rw [h2] at hv
      exact ⟨h2, hv⟩
    · simp only [Bool.not_eq_true] at hv
      simp [hv] at h
  · rintro ⟨h1, h2⟩
    unfold pydantic
    rw [h1]
    simp [h2]

theorem validRec_parts (r : Rec) (h : validRec r = true) :
    validGender r.gender = true ∧ validBatch r.batch = true
      ∧ validLI r.linkedin_url = true
      ∧ expOK r.Industry_experiences = true := by
  simp only [validRec, Bool.and_eq_true] at h
  exact ⟨h.1.1.1, h.1.1.2, h.1.2, h.2⟩

theorem alumniCreate_counts (cs : Counts) (b : String) (d : RecData) :
    (alumniCreate cs b d).1 = dinsert cs b (nextSeq cs b) := rfl

theorem alumniCreate_ok (cs : Counts) (b : String) (a : Rec)
    (hca : applyCaps a = a) (hg : validGender a.gender = true)
    (hli : validLI a.linkedin_url = true)
    (hexp : expOK a.Industry_experiences = true)
    (hb : validBatch b = true) :
    alumniCreate cs b a.toData = (dinsert cs b (nextSeq cs b),
      .ok { a with id := fmt3 (nextSeq cs b) b, batch := b }) := by
  show (dinsert cs b (nextSeq cs b),
    pydantic (assemble (fmt3 (nextSeq cs b) b) b a.toData)) = _
  rw [pydantic_assemble _ _ a hca hg hli hexp hb]

theorem alumniCreate_data_ok (cs : Counts) (b : String) (d : RecData)
    (hd : dataOK d = true) (hb : validBatch b = true) :
    alumniCreate cs b d = (dinsert cs b (nextSeq cs b),
      .ok (applyCaps (assemble (fmt3 (nextSeq cs b) b) b d))) := by
  have hval : validRec (applyCaps (assemble (fmt3 (nextSeq cs b) b) b d))
      = true := by
    have he : validRec (applyCaps (assemble (fmt3 (nextSeq cs b) b) b d))
        = (validGender d.gender && validBatch b && validLI d.linkedin_url
            && expOK d.Industry_experiences) := rfl
    rw [he]
    simp only [dataOK, Bool.and_eq_true] at hd
    simp [hd.1.1, hd.1.2, hd.2, hb]
  unfold alumniCreate pydantic
  simp [hval]

theorem alumniCreate_fail (cs : Counts) (b : String) (d : RecData)
    (hb : validBatch b = false) :
    alumniCreate cs b d = (dinsert cs b (nextSeq cs b),
      .error (.validation "validation error")) := by
  have hval : validRec (applyCaps (assemble (fmt3 (nextSeq cs b) b) b d))
      = false := by
    have he : validRec (applyCaps (assemble (fmt3 (nextSeq cs b) b) b d))
        = (validGender d.gender && validBatch b && validLI d.linkedin_url
            && expOK d.Industry_experiences) := rfl
    rw [he, hb]
    simp
  unfold alumniCreate pydantic
  simp [hval]

theorem createSeq_ids (B : String) (d : RecData) (hd : dataOK d = true)
    (hb : validBatch B = true) : ∀ (n : Nat) (cs : Counts),
    (createSeq B d n cs).1 = (List.range n).map
      (fun i => fmt3 ((List.lookup B cs).getD 0 + (i + 1)) B) := by
  intro n
  induction n with
  | zero => intro cs; simp [createSeq]
  | succ n ih =>
    intro cs
    rw [createSeq, alumniCreate_data_ok cs B d hd hb]
    have hid : (applyCaps (assemble (fmt3 (nextSeq cs B) B) B d)).id
        = fmt3 (nextSeq cs B) B := rfl
    rw [ih (dinsert cs B (nextSeq cs B))]
    rw [List.range_succ_eq_map]
    simp only [List.map_cons, List.map_map, hid,
      lookup_dinsert_self, Option.getD_some, List.cons_append, List.nil_append]
    congr 1
    apply List.map_congr_left
    intro i _
    simp only [Function.comp_apply]
    have hx : nextSeq cs B + (i + 1)
        = (List.lookup B cs).getD 0 + (Nat.succ i + 1) := by
      simp only [nextSeq]
      omega
    rw [hx]

theorem createSeq_counts (B : String) (d : RecData) (hd : dataOK d = true)
    (hb : validBatch B = true) : ∀ (n : Nat) (cs : Counts),
    List.lookup B (createSeq B d n cs).2 = if n = 0 then List.lookup B cs
      else some ((List.lookup B cs).getD 0 + n) := by
  intro n
  induction n with
  | zero => intro cs; simp [createSeq]
  | succ n ih =>
    intro cs
    rw [createSeq, alumniCreate_data_ok cs B d hd hb]
    have h2 := ih (dinsert cs B (nextSeq cs B))
    rw [lookup_dinsert_self] at h2
    rw [if_neg (Nat.succ_ne_zero n)]
    by_cases hn : n = 0
    · subst hn
      rw [if_pos rfl] at h2
      rw [h2]
      simp [nextSeq]
    · rw [if_neg hn] at h2
      rw [h2]
      simp only [Option.getD_some, nextSeq]
      congr 1
      omega

/-! ## Claim theorems -/

/-- C4, counterexample: with a non-empty in-memory counter table and an
absent data file, `load_data` returns the empty document but does NOT
reset the in-memory counter table to the returned document's (empty)
counter table — refuting "in every case it resets the in-memory counter
table to match the document it returns". -/
theorem C4_counterexample :
    (load_data .absent [("2008-10", 5)]).1 = emptyDoc
      ∧ (load_data .absent [("2008-10", 5)]).2
          ≠ (load_data .absent [("2008-10", 5)]).1.batch_counts := by
  decide

/-- C4, amended: `load_data` returns an empty document when the file is
absent or undecodable, and resets the in-memory counter table only when
the file parses — in the absent/corrupt branches the in-memory table is
left unchanged. -/
theorem C4_load_data_amended (cs : Counts) (d : Doc) :
    load_data .absent cs = (emptyDoc, cs)
      ∧ load_data .corrupt cs = (emptyDoc, cs)
      ∧ load_data (.valid d) cs = (d, d.batch_counts) :=
  ⟨rfl, rfl, rfl⟩

/-- C1: starting from an empty counter table, minting `N` identifiers
under a valid batch `B` via `Alumni.create` yields exactly the
identifiers `fmt3 1 B, ..., fmt3 N B` in issuance order (sequence
segments 1..N, zero-padded to 3 digits, hyphen, batch); they are
pairwise distinct; the final stored counter for `B` is `N`; and every
single mint stores the incremented counter back into the table. -/
theorem C1_mint_sequence (B : String) (d : RecData) (N : Nat)
    (hb : validBatch B = true) (hd : dataOK d = true) :
    (createSeq B d N []).1 = (List.range N).map (fun i => fmt3 (i + 1) B)
      ∧ (createSeq B d N []).1.Nodup
      ∧ List.lookup B (createSeq B d N []).2
          = (if N = 0 then none else some N)
      ∧ ∀ cs : Counts, (alumniCreate cs B d).1
          = dinsert cs B ((List.lookup B cs).getD 0 + 1) := by
  have hids := createSeq_ids B d hd hb N []
  simp only [lookup_nil, Option.getD_none, Nat.zero_add] at hids
  have hnodup : (createSeq B d N []).1.Nodup := by
    rw [hids]
    apply List.Nodup.map
    · intro x y hxy
      have h2 : x + 1 = y + 1 := fmt3_inj hxy
      omega
    · exact List.nodup_range N
  have hcnt := createSeq_counts B d hd hb N []
  simp only [lookup_nil, Option.getD_none, Nat.zero_add] at hcnt
  exact ⟨hids, hnodup, hcnt, fun cs => rfl⟩

/-- Witness for C1 at `B = "2008-10"`, `N = 3`. -/
theorem C1_mint_sequence_witness :
    validBatch "2008-10" = true ∧ dataOK exData = true
      ∧ (createSeq "2008-10" exData 3 []).1
          = (List.range 3).map (fun i => fmt3 (i + 1) "2008-10") :=
  ⟨by decide, by decide,
    (C1_mint_sequence "2008-10" exData 3 (by decide) (by decide)).1⟩

/-- C10: when no sort key is supplied, the order token is never examined:
for every order string the filtered records come back unsorted with no
error. -/
theorem C10_order_unchecked_without_sort (s : Sys) (ord : String)
    (b g : Option String) :
    (sort_alumni s none ord b g).2
      = .ok (filterPipe ((load_data s.file s.counts).1.alumni.map Prod.snd)
          b g) := rfl

/-- C9: with no sort requested, a (non-empty) batch filter returns exactly
the records whose batch equals the label; adding a gender filter returns
exactly the records matching both equalities; matching records are
returned unmodified (they are the stored values themselves).  The
non-emptiness hypotheses come from the code's `if batch:` / `if gender:`
truthiness tests, which disable the filter for an empty-string value. -/
theorem C9_list_filters (s : Sys) (ord : String) (b g : String)
    (hb : b ≠ "") (hg : g ≠ "") :
    (sort_alumni s none ord (some b) none).2
        = .ok (((load_data s.file s.counts).1.alumni.map Prod.snd).filter
            (fun r => r.batch == b))
      ∧ (sort_alumni s none ord (some b) (some g)).2
          = .ok (((load_data s.file s.counts).1.alumni.map Prod.snd).filter
              (fun r => r.gender == g && r.batch == b))
      ∧ ∀ r : Rec,
          (r ∈ ((load_data s.file s.counts).1.alumni.map Prod.snd).filter
              (fun r => r.gender == g && r.batch == b))
            ↔ r ∈ ((load_data s.file s.counts).1.alumni.map Prod.snd)
                ∧ r.batch = b ∧ r.gender = g := by
  have hb' : (b == "") = false := beq_eq_false_iff_ne.mpr hb
  have hg' : (g == "") = false := beq_eq_false_iff_ne.mpr hg
  refine ⟨?_, ?_, ?_⟩
  · show Except.ok (filterPipe ((load_data s.file s.counts).1.alumni.map
      Prod.snd) (some b) none) = _
    simp [filterPipe, hb']
  · show Except.ok (filterPipe ((load_data s.file s.counts).1.alumni.map
      Prod.snd) (some b) (some g)) = _
    simp [filterPipe, hb', hg', List.filter_filter]
  · intro r
    simp only [List.mem_filter, Bool.and_eq_true, beq_iff_eq]
    tauto

/-- Witness for C9 on the concrete one-record store. -/
theorem C9_list_filters_witness :
    ("2008-10" : String) ≠ "" ∧ ("Female" : String) ≠ ""
      ∧ (sort_alumni exSysNP none "asc" (some "2008-10") (some "Female")).2
          = .ok ((exDoc.alumni.map Prod.snd).filter
              (fun r => r.gender == "Female" && r.batch == "2008-10")) :=
  ⟨by decide, by decide,
    (C9_list_filters exSysNP "asc" "2008-10" "Female" (by decide)
      (by decide)).2.1⟩

/-- C2: deleting a stored record leaves the batch counter table untouched
(both the one saved back to the file and the in-memory one), so the next
mint under any batch continues from the prior maximum: it still stores
`previous counter + 1`. -/
theorem C2_delete_keeps_counters (s : Sys) (D : Doc) (i : String)
    (r : Rec) (hf : s.file = .valid D)
    (hr : List.lookup i D.alumni = some r) :
    (delete_alumni s i).1.file
        = .valid ⟨eraseKey D.alumni i, D.batch_counts⟩
      ∧ (delete_alumni s i).1.counts = D.batch_counts
      ∧ ∀ (B : String) (d : RecData),
          (alumniCreate (delete_alumni s i).1.counts B d).1
            = dinsert D.batch_counts B
                ((List.lookup B D.batch_counts).getD 0 + 1) := by
  obtain ⟨f, cs, ph⟩ := s
  have hf' : f = .valid D := hf
  subst hf'
  refine ⟨?_, ?_, fun B d => ?_⟩ <;>
    simp [delete_alumni, load_data, hr, save_data]
  exact alumniCreate_counts D.batch_counts B d

/-- Witness for C2: the spec's own scenario — records 1..3 exist under
`2008-10` with counter 3; deleting `002-2008-10` keeps the counter at 3
and the next mint under `2008-10` stores 4. -/
theorem C2_delete_keeps_counters_witness :
    List.lookup "002-2008-10" exDoc3.alumni = some (mkEx "002-2008-10")
      ∧ (delete_alumni exSys3 "002-2008-10").1.counts = exDoc3.batch_counts
      ∧ (alumniCreate (delete_alumni exSys3 "002-2008-10").1.counts
          "2008-10" exData).1 = [("2008-10", 4)] :=
  ⟨by decide,
    (C2_delete_keeps_counters exSys3 exDoc3 "002-2008-10"
      (mkEx "002-2008-10") rfl (by decide)).2.1,
    by decide⟩

/-- C7: when the freshly minted identifier already exists in the record
mapping, `create_alumni` rejects — the duplicate-identifier error (the
400 raised in the handler is re-wrapped by its blanket `except` clause
into a 500 carrying the conflict detail) — and nothing is persisted;
otherwise it inserts the record under the minted identifier, persists
both the record and the updated counter, and returns the minted
identifier. -/
theorem C7_create_conflict (s : Sys) (D : Doc) (a : Rec)
    (hf : s.file = .valid D) (hp : pydantic a = .ok a) :
    ((List.lookup (fmt3 (nextSeq D.batch_counts a.batch) a.batch)
        D.alumni).isSome = true →
      (create_alumni s a).2
          = .error (.http 500 "400: Alumni ID already exists")
        ∧ (create_alumni s a).1.file = s.file)
    ∧ (List.lookup (fmt3 (nextSeq D.batch_counts a.batch) a.batch)
        D.alumni = none →
      (create_alumni s a).2
          = .ok (fmt3 (nextSeq D.batch_counts a.batch) a.batch)
        ∧ (create_alumni s a).1.file = .valid
            ⟨dinsert D.alumni (fmt3 (nextSeq D.batch_counts a.batch) a.batch)
                { a with id := fmt3 (nextSeq D.batch_counts a.batch) a.batch },
              dinsert D.batch_counts a.batch
                (nextSeq D.batch_counts a.batch)⟩) := by
  obtain ⟨f, cs, ph⟩ := s
  have hf' : f = .valid D := hf
  subst hf'
  obtain ⟨hca, hval⟩ := (pydantic_ok_iff a).mp hp
  obtain ⟨hg, hb, hli, hexp⟩ := validRec_parts a hval
  have hco := alumniCreate_ok D.batch_counts a.batch a hca hg hli hexp hb
  have hmsg : exStr (.http 400 "Alumni ID already exists")
      = "400: Alumni ID already exists" := by decide
  constructor
  · intro hcol
    constructor <;> simp [create_alumni, load_data, hco, hcol, hmsg]
  · intro hnone
    constructor <;> simp [create_alumni, load_data, hco, hnone, save_data]

/-- Witness for C7 on the empty store: no conflict, record inserted and
the minted identifier `001-2008-10` returned. -/
theorem C7_create_conflict_witness :
    pydantic (mkEx "x") = .ok (mkEx "x")
      ∧ (create_alumni exSys0 (mkEx "x")).2 = .ok "001-2008-10" := by
  refine ⟨by decide, ?_⟩
  have h := (C7_create_conflict exSys0 emptyDoc (mkEx "x") rfl
    (by decide)).2 rfl
  exact h.1

/-- C5: updating an existing record stores `updMerge`: the stored
identifier and batch survive (whatever identifier/batch the caller sent
is discarded), a falsy (absent/empty) replacement photo reference keeps
the stored one, a truthy one is honored, and every other field takes the
caller's value. -/
theorem C5_update_frame (s : Sys) (D : Doc) (i : String) (old upd : Rec)
    (hf : s.file = .valid D) (hr : List.lookup i D.alumni = some old)
    (hid : old.id = i) :
    (update_alumni s i upd).2 = .ok (updMerge i old upd)
      ∧ (update_alumni s i upd).1.file
          = .valid ⟨dinsert D.alumni i (updMerge i old upd), D.batch_counts⟩
      ∧ (updMerge i old upd).id = old.id
      ∧ (updMerge i old upd).batch = old.batch
      ∧ (photoTruthy upd.profile_photo = false →
          (updMerge i old upd).profile_photo = old.profile_photo)
      ∧ (photoTruthy upd.profile_photo = true →
          (updMerge i old upd).profile_photo = upd.profile_photo)
      ∧ (updMerge i old upd).firstname = upd.firstname
      ∧ (updMerge i old upd).surname = upd.surname
      ∧ (updMerge i old upd).gender = upd.gender
      ∧ (updMerge i old upd).linkedin_url = upd.linkedin_url
      ∧ (updMerge i old upd).current_organization = upd.current_organization
      ∧ (updMerge i old upd).current_position = upd.current_position
      ∧ (updMerge i old upd).current_location = upd.current_location
      ∧ (updMerge i old upd).Industry_experiences = upd.Industry_experiences
      ∧ (updMerge i old upd).software_skill_1 = upd.software_skill_1
      ∧ (updMerge i old upd).software_skill_2 = upd.software_skill_2
      ∧ (updMerge i old upd).software_skill_3 = upd.software_skill_3
      ∧ (updMerge i old upd).programming_lang_1 = upd.programming_lang_1
      ∧ (updMerge i old upd).programming_lang_2 = upd.programming_lang_2
      ∧ (updMerge i old upd).programming_lang_3 = upd.programming_lang_3 := by
  obtain ⟨f, cs, ph⟩ := s
  have hf' : f = .valid D := hf
  subst hf'
  refine ⟨?_, ?_, ?_, rfl,
    fun h => by simp [updMerge, h],
    fun h => by simp [updMerge, h],
    rfl, rfl, rfl, rfl, rfl, rfl, rfl, rfl, rfl, rfl, rfl, rfl, rfl, rfl⟩
  · simp [update_alumni, load_data, hr]
  · simp [update_alumni, load_data, hr, save_data]
  · simp [updMerge, hid]

/-- Witness for C5: updating the stored record with a body that carries a
different batch and no photo keeps the stored batch and photo reference. -/
theorem C5_update_frame_witness :
    List.lookup "001-2008-10" exDoc.alumni = some exRecP
      ∧ exRecP.id = "001-2008-10"
      ∧ (update_alumni exSysNP "001-2008-10" exUpd).2
          = .ok (updMerge "001-2008-10" exRecP exUpd)
      ∧ (updMerge "001-2008-10" exRecP exUpd).batch = exRecP.batch
      ∧ (updMerge "001-2008-10" exRecP exUpd).profile_photo
          = exRecP.profile_photo := by
  have h := C5_update_frame exSysNP exDoc "001-2008-10" exRecP exUpd rfl
    (by decide) (by decide)
  exact ⟨by decide, by decide, h.1, h.2.2.2.1, h.2.2.2.2.1 (by decide)⟩

/-- C6: with a sort requested, `desc` returns the filtered records
non-increasing by experience (absent values as zero) and `asc` returns
them non-decreasing; any (truthy) sort key other than
`Industry_experiences` is a 400, and — for the supported key — any order
token other than `asc`/`desc` is a 400. -/
theorem C6_sort_spec (s : Sys) (b g : Option String) (ord : String) :
    ((sort_alumni s (some "Industry_experiences") "desc" b g).2
        = .ok ((filterPipe ((load_data s.file s.counts).1.alumni.map
            Prod.snd) b g).mergeSort (fun x y => expKey y ≤ expKey x))
      ∧ ((filterPipe ((load_data s.file s.counts).1.alumni.map Prod.snd)
            b g).mergeSort (fun x y => expKey y ≤ expKey x)).Pairwise
          (fun x y => expKey y ≤ expKey x))
    ∧ ((sort_alumni s (some "Industry_experiences") "asc" b g).2
        = .ok ((filterPipe ((load_data s.file s.counts).1.alumni.map
            Prod.snd) b g).mergeSort (fun x y => expKey x ≤ expKey y))
      ∧ ((filterPipe ((load_data s.file s.counts).1.alumni.map Prod.snd)
            b g).mergeSort (fun x y => expKey x ≤ expKey y)).Pairwise
          (fun x y => expKey x ≤ expKey y))
    ∧ (∀ k : String, k ≠ "Industry_experiences" → k ≠ "" →
        (sort_alumni s (some k) ord b g).2
          = .error (.http 400 "You can only sort by Industry_experiences"))
    ∧ (ord ≠ "asc" → ord ≠ "desc" →
        (sort_alumni s (some "Industry_experiences") ord b g).2
          = .error (.http 400 "Order must be asc or desc")) := by
  refine ⟨⟨rfl, ?_⟩, ⟨rfl, ?_⟩, ?_, ?_⟩
  · have htransD : ∀ x y z : Rec, decide (expKey y ≤ expKey x) = true →
        decide (expKey z ≤ expKey y) = true →
        decide (expKey z ≤ expKey x) = true := by
      intro x y z h1 h2
      simp only [decide_eq_true_eq] at h1 h2 ⊢
      exact le_trans h2 h1
    have htotD : ∀ x y : Rec,
        (decide (expKey y ≤ expKey x) || decide (expKey x ≤ expKey y))
          = true := by
      intro x y
      simp only [Bool.or_eq_true, decide_eq_true_eq]
      exact le_total _ _
    have hp := List.sorted_mergeSort htransD htotD
      (filterPipe ((load_data s.file s.counts).1.alumni.map Prod.snd) b g)
    exact hp.imp (fun h => of_decide_eq_true h)
  · have htransA : ∀ x y z : Rec, decide (expKey x ≤ expKey y) = true →
        decide (expKey y ≤ expKey z) = true →
        decide (expKey x ≤ expKey z) = true := by
      intro x y z h1 h2
      simp only [decide_eq_true_eq] at h1 h2 ⊢
      exact le_trans h1 h2
    have htotA : ∀ x y : Rec,
        (decide (expKey x ≤ expKey y) || decide (expKey y ≤ expKey x))
          = true := by
      intro x y
      simp only [Bool.or_eq_true, decide_eq_true_eq]
      exact le_total _ _
    have hp := List.sorted_mergeSort htransA htotA
      (filterPipe ((load_data s.file s.counts).1.alumni.map Prod.snd) b g)
    exact hp.imp (fun h => of_decide_eq_true h)
  · intro k hk1 hk2
    have h1 : (k != "") = true := bne_iff_ne.mpr hk2
    have h2 : (k != "Industry_experiences") = true := bne_iff_ne.mpr hk1
    simp [sort_alumni, h1, h2]
  · intro h1 h2
    have ha : (ord != "asc") = true := bne_iff_ne.mpr h1
    have hd : (ord != "desc") = true := bne_iff_ne.mpr h2
    have h0 : (("Industry_experiences" : String) != "") = true := by decide
    have h3 : (("Industry_experiences" : String) != "Industry_experiences")
        = false := by decide
    simp [sort_alumni, h0, h3, ha, hd]

/-- Witness for C6: sort key `batch` and order token `weird` are both
rejected with a 400. -/
theorem C6_sort_spec_witness :
    (sort_alumni exSysNP (some "batch") "weird" none none).2
        = .error (.http 400 "You can only sort by Industry_experiences")
      ∧ (sort_alumni exSysNP (some "Industry_experiences") "weird"
          none none).2
        = .error (.http 400 "Order must be asc or desc") := by
  have h := C6_sort_spec exSysNP none none "weird"
  exact ⟨h.2.2.1 "batch" (by decide) (by decide),
    h.2.2.2 (by decide) (by decide)⟩

/-- The full effect of a successful `PUT /update_id/{old_id}`: the old
entry is dropped, the record is re-inserted under the freshly minted
identifier (with its photo reference rewritten when a photo file existed
under the old identifier, in which case the file is renamed too), and
the updated counter table is persisted. -/
theorem update_id_state (D : Doc) (cs : Counts) (ph : List String)
    (old_id new_batch : String) (old : Rec)
    (hr : List.lookup old_id D.alumni = some old)
    (hca : applyCaps old = old) (hg : validGender old.gender = true)
    (hli : validLI old.linkedin_url = true)
    (hexp : expOK old.Industry_experiences = true)
    (hb : validBatch new_batch = true) :
    update_alumni_id ⟨.valid D, cs, ph⟩ old_id new_batch
      = (⟨save_data
            { D with alumni := (dinsert (eraseKey D.alumni old_id)
                (fmt3 (nextSeq D.batch_counts new_batch) new_batch)
                (if (old_id ++ ".jpg") ∈ ph then
                  { old with
                    id := fmt3 (nextSeq D.batch_counts new_batch) new_batch
                    batch := new_batch
                    profile_photo := some (fmt3 (nextSeq D.batch_counts
                      new_batch) new_batch ++ ".jpg") }
                else
                  { old with
                    id := fmt3 (nextSeq D.batch_counts new_batch) new_batch
                    batch := new_batch })) }
            (dinsert D.batch_counts new_batch
              (nextSeq D.batch_counts new_batch)),
          dinsert D.batch_counts new_batch
            (nextSeq D.batch_counts new_batch),
          if (old_id ++ ".jpg") ∈ ph then
            fsRename ph (old_id ++ ".jpg")
              (fmt3 (nextSeq D.batch_counts new_batch) new_batch ++ ".jpg")
          else ph⟩,
        .ok (fmt3 (nextSeq D.batch_counts new_batch) new_batch)) := by
  have hco := alumniCreate_ok D.batch_counts new_batch old hca hg hli hexp hb
  by_cases hph : (old_id ++ ".jpg") ∈ ph <;>
    simp [update_alumni_id, load_data, hr, hco, hph]

/-- C3, counterexample: reassigning the batch of a record that has an
uploaded photo file rewrites its photo reference, so a field other than
the identifier and the batch does change — refuting "fields other than
identifier and batch are unchanged". -/
theorem C3_counterexample :
    List.lookup "001-2008-10" exDoc.alumni = some exRecP
      ∧ validBatch "2010-12" = true
      ∧ (update_alumni_id exSys "001-2008-10" "2010-12").2
          = .ok "001-2010-12"
      ∧ (get_alumni (update_alumni_id exSys "001-2008-10" "2010-12").1
            "001-2010-12").2
          = .ok { exRecP with
              id := "001-2010-12"
              batch := "2010-12"
              profile_photo := some "001-2010-12.jpg" }
      ∧ ({ exRecP with
            id := "001-2010-12"
            batch := "2010-12"
            profile_photo := some "001-2010-12.jpg" } : Rec).profile_photo
          ≠ exRecP.profile_photo := by
  decide

/-- C3, amended: after a successful batch reassignment, the old
identifier is gone (`get` yields not-found) and the record is stored
under the returned identifier with every field other than the
identifier, the batch and the photo reference unchanged; the photo
reference is rewritten to `<new_id>.jpg` exactly when a photo file
existed under the old identifier, and is itself unchanged otherwise.
(The stored record must be one the validators accept, since
`Alumni.create` re-validates it; the minted identifier must differ from
the old one, which holds whenever counters dominate stored sequence
numbers.) -/
theorem C3_reassign_amended (s : Sys) (D : Doc)
    (old_id new_batch : String) (old : Rec) (hf : s.file = .valid D)
    (hr : List.lookup old_id D.alumni = some old)
    (hca : applyCaps old = old) (hg : validGender old.gender = true)
    (hli : validLI old.linkedin_url = true)
    (hexp : expOK old.Industry_experiences = true)
    (hb : validBatch new_batch = true)
    (hne : fmt3 (nextSeq D.batch_counts new_batch) new_batch ≠ old_id) :
    (update_alumni_id s old_id new_batch).2
        = .ok (fmt3 (nextSeq D.batch_counts new_batch) new_batch)
      ∧ (get_alumni (update_alumni_id s old_id new_batch).1 old_id).2
          = .error (.http 404 "Alumni not found")
      ∧ (get_alumni (update_alumni_id s old_id new_batch).1
            (fmt3 (nextSeq D.batch_counts new_batch) new_batch)).2
          = .ok (if (old_id ++ ".jpg") ∈ s.photos then
              { old with
                id := fmt3 (nextSeq D.batch_counts new_batch) new_batch
                batch := new_batch
                profile_photo := some (fmt3 (nextSeq D.batch_counts
                  new_batch) new_batch ++ ".jpg") }
            else
              { old with
                id := fmt3 (nextSeq D.batch_counts new_batch) new_batch
                batch := new_batch }) := by
  obtain ⟨f, cs, ph⟩ := s
  have hf' : f = .valid D := hf
  subst hf'
  rw [update_id_state D cs ph old_id new_batch old hr hca hg hli hexp hb]
  refine ⟨rfl, ?_, ?_⟩
  · have h404 : List.lookup old_id (dinsert (eraseKey D.alumni old_id)
        (fmt3 (nextSeq D.batch_counts new_batch) new_batch)
        (if (old_id ++ ".jpg") ∈ ph then
          { old with
            id := fmt3 (nextSeq D.batch_counts new_batch) new_batch
            batch := new_batch
            profile_photo := some (fmt3 (nextSeq D.batch_counts new_batch)
              new_batch ++ ".jpg") }
        else
          { old with
            id := fmt3 (nextSeq D.batch_counts new_batch) new_batch
            batch := new_batch })) = none := by
      rw [lookup_dinsert_ne _ _ _ _ (Ne.symm hne)]
      exact lookup_eraseKey_self _ _
    simp [get_alumni, load_data, save_data, h404]
  · have h200 := lookup_dinsert_self (eraseKey D.alumni old_id)
      (fmt3 (nextSeq D.batch_counts new_batch) new_batch)
      (if (old_id ++ ".jpg") ∈ ph then
        { old with
          id := fmt3 (nextSeq D.batch_counts new_batch) new_batch
          batch := new_batch
          profile_photo := some (fmt3 (nextSeq D.batch_counts new_batch)
            new_batch ++ ".jpg") }
      else
        { old with
          id := fmt3 (nextSeq D.batch_counts new_batch) new_batch
          batch := new_batch })
    simp [get_alumni, load_data, save_data, h200]

/-- Witness for C3 (amended) on the store whose photo directory is empty:
the photo reference is left as stored. -/
theorem C3_reassign_amended_witness :
    validBatch "2010-12" = true
      ∧ (get_alumni (update_alumni_id exSysNP "001-2008-10" "2010-12").1
          "001-2008-10").2 = .error (.http 404 "Alumni not found") :=
  ⟨by decide,
    (C3_reassign_amended exSysNP exDoc "001-2008-10" "2010-12" exRecP rfl
      (by decide) (by decide) (by decide) (by decide) (by decide)
      (by decide) (by decide)).2.1⟩

/-- C8, counterexample: calling the batch-reassignment route with an
invalid new batch label fails validation, yet the in-memory batch
counter table has already been mutated (it gains the entry for the bad
label), because `Alumni.create` increments and stores the counter before
the validators run — refuting "neither the record mapping, nor the batch
counter table, nor the persisted document is changed when validation
fails". -/
theorem C8_counterexample :
    validBatch "bad" = false
      ∧ (update_alumni_id exSysNP "001-2008-10" "bad").2
          = .error (.validation "validation error")
      ∧ (update_alumni_id exSysNP "001-2008-10" "bad").1.counts
          = [("2008-10", 1), ("bad", 1)]
      ∧ ([("2008-10", 1), ("bad", 1)] : Counts) ≠ exDoc.batch_counts := by
  decide

/-- C8, amended: a validation failure on a request body (create/update)
is rejected before the handler runs, leaving the whole state unchanged;
but batch reassignment with an invalid new batch label, while leaving
the record mapping and the persisted document unchanged, increments the
in-memory batch counter for that label before the failure propagates. -/
theorem C8_validation_amended :
    (∀ (s : Sys) (raw : Rec) (e : Ex), pydantic raw = .error e →
        create_endpoint s raw
          = (s, .error (.http 422 "request body validation failed")))
      ∧ (∀ (s : Sys) (i : String) (raw : Rec) (e : Ex),
          pydantic raw = .error e →
          update_endpoint s i raw
            = (s, .error (.http 422 "request body validation failed")))
      ∧ ∀ (s : Sys) (D : Doc) (old_id nb : String) (old : Rec),
          s.file = .valid D → List.lookup old_id D.alumni = some old →
          validBatch nb = false →
          (update_alumni_id s old_id nb).2
              = .error (.validation "validation error")
            ∧ (update_alumni_id s old_id nb).1.file = s.file
            ∧ (update_alumni_id s old_id nb).1.counts
                = dinsert D.batch_counts nb
                    ((List.lookup nb D.batch_counts).getD 0 + 1) := by
  refine ⟨?_, ?_, ?_⟩
  · intro s raw e h
    simp [create_endpoint, h]
  · intro s i raw e h
    simp [update_endpoint, h]
  · intro s D old_id nb old hf hr hb
    obtain ⟨f, cs, ph⟩ := s
    have hf' : f = .valid D := hf
    subst hf'
    have hfail := alumniCreate_fail D.batch_counts nb old.toData hb
    refine ⟨?_, ?_, ?_⟩ <;>
      simp [update_alumni_id, load_data, hr, hfail, nextSeq]

/-- Witness for C8 (amended): an invalid body is rejected with the state
untouched; an invalid reassignment batch label grows the counter table. -/
theorem C8_validation_amended_witness :
    pydantic exBadRec = .error (.validation "validation error")
      ∧ create_endpoint exSysNP exBadRec
          = (exSysNP, .error (.http 422 "request body validation failed"))
      ∧ update_endpoint exSysNP "001-2008-10" exBadRec
          = (exSysNP, .error (.http 422 "request body validation failed"))
      ∧ validBatch "bad" = false
      ∧ (update_alumni_id exSys3 "002-2008-10" "bad").1.counts
          = dinsert exDoc3.batch_counts "bad"
              ((List.lookup "bad" exDoc3.batch_counts).getD 0 + 1) := by
  have h := C8_validation_amended
  refine ⟨by decide, ?_, ?_, by decide, ?_⟩
  · exact h.1 exSysNP exBadRec (.validation "validation error") (by decide)
  · exact h.2.1 exSysNP "001-2008-10" exBadRec
      (.validation "validation error") (by decide)
  · exact (h.2.2 exSys3 exDoc3 "002-2008-10" "bad" (mkEx "002-2008-10") rfl
      (by decide) (by decide)).2.2

end AlumniBackend
